import Mathlib

/-!
Verification of the libchamplain map-view core.

This file is a shallow embedding of the slippy-map viewport engine found in
`src/champlain/champlain-view.c` and `src/champlain/zoomlevel.c`:
the anchor mechanism, the visible-tile reconciliation, zoom changes, the
go-to animation controller and `ensure_visible`.

Modelling conventions:
* C `gint`/`guint` values are modelled as `Int`; where C performs unsigned
  32-bit arithmetic the wrap is made explicit with `guintWrap`, and where a
  floating value is converted to `gint` the truncation toward zero is made
  explicit with `ratTrunc`.
* C `gdouble`/`gfloat` values are modelled as exact rationals (`ℚ`); the
  quantities involved stay far below the range where double rounding occurs.
* The external collaborators (the map source with its projection functions,
  the clutter actors, the tidy viewport) are parameters: `MapSource` carries
  the projection and grid-geometry capabilities, and actor positioning is
  reflected by pure position functions.
* Functions of the repository that are declared and called by
  `champlain-view.c` but whose definitions are not part of the two source
  files (the `map.c` / `champlain-tile.c` helpers) are modelled from the
  spec; each such definition says so in its doc comment.
-/

namespace Champlain

/-- Truncation of a rational toward zero: the semantics of C's conversion of
a `gdouble` value to `gint`. -/
def ratTrunc (q : ℚ) : Int := q.num.tdiv (q.den : Int)

/-- Reduction of an integer into 32-bit `guint` range: the semantics of the
unsigned arithmetic appearing in `view_update_anchor` (the `max` bound) and
in `champlain_view_ensure_visible` (comparisons against `guint` extents). -/
def guintWrap (n : Int) : Int := n % 4294967296

/-- Ceiling division for the `ceil((float)a / b)` computations of
`view_load_visible_tiles`; it is applied only to a non-negative numerator
and positive denominator, where the float computation is exact. -/
def cdivCeil (a b : Int) : Int := (a + b - 1).ediv b

/-- Load state of a tile and aggregate state of the view
(`ChamplainState` in `champlain-defines.h`, as used by `champlain-view.c`). -/
inductive ChamplainState where
  | Init
  | Loading
  | Done
  | Error
deriving DecidableEq

/-- One tile of the grid: grid coordinates, its zoom level, its load state
and whether a renderable actor is attached. -/
structure ChamplainTile where
  x : Int
  y : Int
  zoom : Int
  state : ChamplainState
  hasActor : Bool
deriving DecidableEq

/-- The tile grid of one zoom level (`ZoomLevel` from
`src/champlain/zoomlevel.c`): level number, grid dimensions in tiles, the
tile size in pixels and the recorded tiles. -/
structure ZoomLevel where
  level : Int
  row_count : Int
  column_count : Int
  tile_size : Int
  tiles : List ChamplainTile
deriving DecidableEq

/-- Width of a zoom level in pixels, `zoom_level_get_width` from
`src/champlain/zoomlevel.c`: `column_count * tile_size`.  This is also the
reading the spec gives for the grid width capability consumed by
`champlain-view.c`. -/
def zoom_level_get_width (level : ZoomLevel) : Int :=
  level.column_count * level.tile_size

/-- Height of a zoom level in pixels, `zoom_level_get_height` from
`src/champlain/zoomlevel.c`: `row_count * tile_size`. -/
def zoom_level_get_height (level : ZoomLevel) : Int :=
  level.row_count * level.tile_size

/-- The map model owned by the view (`Map` of `champlain-map.h`): the claims
only touch its active zoom level. -/
structure Map where
  current_level : ZoomLevel
deriving DecidableEq

/-- The external map-source collaborator: projection between geographic and
pixel coordinates, tile size and grid geometry per zoom level.  These are
the capabilities `champlain-view.c` consumes through
`champlain_map_source_*`. -/
structure MapSource where
  get_x : Int → ℚ → Int
  get_y : Int → ℚ → Int
  get_longitude : Int → ℚ → ℚ
  get_latitude : Int → ℚ → ℚ
  tile_size : Int
  min_zoom_level : Int
  max_zoom_level : Int
  columns : Int → Int
  rows : Int → Int

/-- The go-to animation context (`GoToContext` in `champlain-view.c`).  The
clutter timeline object is modelled by a numeric identity so that event
delivery to a stale timeline can be expressed. -/
structure GoToContext where
  timeline : Nat
  to_latitude : ℚ
  to_longitude : ℚ
  from_latitude : ℚ
  from_longitude : ℚ
deriving DecidableEq

/-- The view state (`ChamplainViewPrivate`).  `originX`/`originY` is the tidy
viewport's raw origin (a float in C); `viewportX`/`viewportY` is the stored
`gint` copy in `priv->viewport_size`; `aliveTimelines`, `nextTimeline` and
`animCompleted` model the clutter timeline objects owned through
`goto_context` and the emitted `animation-completed` notifications. -/
structure ViewPriv where
  zoom_level : Int
  min_zoom_level : Int
  max_zoom_level : Int
  longitude : ℚ
  latitude : ℚ
  anchorX : Int
  anchorY : Int
  anchor_zoom_level : Int
  map : Option Map
  originX : ℚ
  originY : ℚ
  viewportX : Int
  viewportY : Int
  viewportW : Int
  viewportH : Int
  keep_center_on_resize : Bool
  state : ChamplainState
  goto_context : Option GoToContext
  aliveTimelines : List Nat
  nextTimeline : Nat
  animCompleted : Nat
deriving DecidableEq

/-- Dereference of `priv->map->current_level`.  The dummy value stands for
the crash a NULL dereference would be; every modelled call site either
guards the `none` case itself or is only invoked with the map present. -/
def current_level (priv : ViewPriv) : ZoomLevel :=
  match priv.map with
  | some m => m.current_level
  | none => ⟨0, 0, 0, 0, []⟩

/-- Anchor recomputation, `view_update_anchor` (champlain-view.c:1320-1367).
Below zoom 8 the anchor is reset to the origin; otherwise, when the zoom
changed since the last computation or the span `center - anchor + viewport
extent` reaches `G_MAXINT16`, the anchor is recomputed as the center minus
`G_MAXINT16 / 2`, clamped below by `0` and above by
`zoom_level_get_width(level) * tile_size - G_MAXINT16 / 2` (a `guint`
computation) on both axes. -/
def view_update_anchor (src : MapSource) (priv : ViewPriv) (x y : Int) : ViewPriv :=
  let need_anchor : Bool := decide (8 ≤ priv.zoom_level)
  let need_update : Bool := decide (priv.anchor_zoom_level ≠ priv.zoom_level) ||
    decide (32767 ≤ x - priv.anchorX + priv.viewportW) ||
    decide (32767 ≤ y - priv.anchorY + priv.viewportH)
  if need_anchor && need_update then
    let ax := x - 16383
    let ay := y - 16383
    let ax := if ax < 0 then 0 else ax
    let ay := if ay < 0 then 0 else ay
    let maxA := guintWrap (guintWrap (zoom_level_get_width (current_level priv) * src.tile_size) - 16383)
    let ax := if maxA < ax then maxA else ax
    let ay := if maxA < ay then maxA else ay
    { priv with anchorX := ax, anchorY := ay, anchor_zoom_level := priv.zoom_level }
  else if !need_anchor then
    { priv with anchorX := 0, anchorY := 0, anchor_zoom_level := priv.zoom_level }
  else
    priv

/-- Test for a tile occupying the grid cell `(x, y)`; the inner scan of
the load pass of `view_load_visible_tiles`. -/
def tileAt (tiles : List ChamplainTile) (x y : Int) : Bool :=
  tiles.any fun t => t.x == x && t.y == y

/-- The integers from `lo` (inclusive) to `hi` (exclusive): a C
`for (i = lo; i < hi; i++)` iteration range. -/
def intRange (lo hi : Int) : List Int :=
  (List.range (hi - lo).toNat).map fun a : Nat => lo + (a : Int)

/-- The grid cells visited by the nested load loop of
`view_load_visible_tiles` (outer loop over x, inner over y). -/
def rangeCells (xf xc yf yc : Int) : List (Int × Int) :=
  (intRange xf xc).flatMap fun i => (intRange yf yc).map fun j => (i, j)

/-- Creation of a tile by the load pass.  Modelled from the spec:
`champlain-tile.c` is not part of the two source files; a fresh tile is
created empty, an actor is attached, and the immediately issued
`champlain_map_source_fill_tile` fetch transitions it to `Loading`. -/
def champlain_tile_new (zoom x y : Int) : ChamplainTile :=
  ⟨x, y, zoom, ChamplainState.Loading, true⟩

/-- The load pass of `view_load_visible_tiles`: for every cell of the
covering range, scan the current tile list and append a fresh `Loading`
tile (recording a fetch request) when the cell is unoccupied. -/
def loadLoop (zoom : Int) (cells : List (Int × Int)) (tiles : List ChamplainTile)
    (fetched : List (Int × Int)) : List ChamplainTile × List (Int × Int) :=
  match cells with
  | [] => (tiles, fetched)
  | c :: rest =>
    if tileAt tiles c.1 c.2 then loadLoop zoom rest tiles fetched
    else loadLoop zoom rest (tiles ++ [champlain_tile_new zoom c.1 c.2]) (fetched ++ [c])

/-- The covering range computed by `view_load_visible_tiles`
(champlain-view.c:1818-1851): translate the stored viewport origin by the
anchor, clamp to non-negative, take `first = origin / tile_size` and
`count = ceil(extent / tile_size) + 1 + first`, and clamp the counts
against `champlain_zoom_level_get_width/height` (the pixel extents). -/
structure TileRange where
  x_first : Int
  y_first : Int
  x_count : Int
  y_count : Int
deriving DecidableEq

def visibleRange (src : MapSource) (priv : ViewPriv) (lvl : ZoomLevel) : TileRange :=
  let size := src.tile_size
  let vx := priv.viewportX + priv.anchorX
  let vy := priv.viewportY + priv.anchorY
  let vx := if vx < 0 then 0 else vx
  let vy := if vy < 0 then 0 else vy
  let x_count := cdivCeil priv.viewportW size + 1
  let y_count := cdivCeil priv.viewportH size + 1
  let x_first := vx.ediv size
  let y_first := vy.ediv size
  let x_count := x_count + x_first
  let y_count := y_count + y_first
  let x_count := if zoom_level_get_width lvl < x_count then zoom_level_get_width lvl else x_count
  let y_count := if zoom_level_get_height lvl < y_count then zoom_level_get_height lvl else y_count
  ⟨x_first, y_first, x_count, y_count⟩

/-- The eviction test of `view_load_visible_tiles`: a tile survives exactly
when its coordinates lie in the inclusive ranges
`[x_first, x_count] × [y_first, y_count]`. -/
def tileKept (r : TileRange) (t : ChamplainTile) : Bool :=
  !(decide (t.x < r.x_first) || decide (r.x_count < t.x) ||
    decide (t.y < r.y_first) || decide (r.y_count < t.y))

/-- Recomputation of the view's aggregate state, `view_update_state`
(champlain-view.c:1981-2004): `Loading` when any tile of the current level
is `Loading`, otherwise `Done`. -/
def view_update_state (priv : ViewPriv) : ViewPriv :=
  let loading := (current_level priv).tiles.any fun t => t.state == ChamplainState.Loading
  { priv with state := if loading then ChamplainState.Loading else ChamplainState.Done }

/-- The visible-tile reconciliation, `view_load_visible_tiles`
(champlain-view.c:1818-1927).  The function dereferences `priv->map`
unconditionally, so the result is `none` (a crash) when no map exists.
Otherwise: the eviction pass removes (detaching the actor of `Done` tiles)
every tile outside the inclusive covering range, the load pass fills every
unoccupied cell of the half-open range with a fresh `Loading` tile, and
the aggregate state is recomputed. -/
def view_load_visible_tiles (src : MapSource) (priv : ViewPriv) : Option ViewPriv :=
  match priv.map with
  | none => none
  | some m =>
    let lvl := m.current_level
    let r := visibleRange src priv lvl
    let kept := lvl.tiles.filter (tileKept r)
    let loaded := loadLoop lvl.level (rangeCells r.x_first r.x_count r.y_first r.y_count) kept []
    let priv := { priv with map := some ⟨{ lvl with tiles := loaded.1 }⟩ }
    some (view_update_state priv)

/-- The tiles the eviction pass of one `view_load_visible_tiles` run would
remove from the current state. -/
def reconcileEvicted (src : MapSource) (priv : ViewPriv) : List ChamplainTile :=
  match priv.map with
  | none => []
  | some m =>
    let lvl := m.current_level
    let r := visibleRange src priv lvl
    lvl.tiles.filter fun t => !tileKept r t

/-- The fetch requests the load pass of one `view_load_visible_tiles` run
would issue from the current state. -/
def reconcileFetches (src : MapSource) (priv : ViewPriv) : List (Int × Int) :=
  match priv.map with
  | none => []
  | some m =>
    let lvl := m.current_level
    let r := visibleRange src priv lvl
    let kept := lvl.tiles.filter (tileKept r)
    (loadLoop lvl.level (rangeCells r.x_first r.x_count r.y_first r.y_count) kept []).2

/-- Raw render position a tile actor is given by `view_position_tile`
(champlain-view.c:1929-1952): `(x * size - anchor.x, y * size - anchor.y)`. -/
def view_position_tile (priv : ViewPriv) (size : Int) (t : ChamplainTile) : Int × Int :=
  (t.x * size - priv.anchorX, t.y * size - priv.anchorY)

/-- Screen-space position of a tile: its raw render position taken together
with the viewport's raw origin. -/
def tile_screen_pos (priv : ViewPriv) (size : Int) (t : ChamplainTile) : ℚ × ℚ :=
  (((t.x * size - priv.anchorX : Int) : ℚ) - priv.originX,
   ((t.y * size - priv.anchorY : Int) : ℚ) - priv.originY)

/-- Creation of the zoom level grid for a zoom.  Modelled from the spec:
`map.c` / `champlain-map.c` is not part of the two source files;
`map_load_level` asks the map source for a grid sized for the target zoom
and starts it with no tiles (the grid is lazily filled by reconciliation). -/
def map_load_level (src : MapSource) (zoom : Int) : Map :=
  ⟨⟨zoom, src.rows zoom, src.columns zoom, src.tile_size, []⟩⟩

/-- Zoom switch of the map model.  Modelled from the spec: `map_zoom_to`
swaps the active `ZoomLevel` for one sized for the target zoom; the
claims under verification only exercise it inside the allowed zoom range,
where it succeeds. -/
def map_zoom_to (src : MapSource) (zoom : Int) : Map :=
  map_load_level src zoom

/-- Lazy creation of the map on first centering, `create_initial_map`
(champlain-view.c:349-366): a fresh map model whose current level is
loaded for the view's zoom level. -/
def create_initial_map (src : MapSource) (priv : ViewPriv) : ViewPriv :=
  { priv with map := some (map_load_level src priv.zoom_level) }

/-- Longitude under a raw horizontal pixel position,
`viewport_get_longitude_at` (champlain-view.c:226-234); the map source is
always present in the modelled states. -/
def viewport_get_longitude_at (src : MapSource) (priv : ViewPriv) (x : Int) : ℚ :=
  src.get_longitude priv.zoom_level (x : ℚ)

/-- Latitude under a raw vertical pixel position,
`viewport_get_latitude_at` (champlain-view.c:246-254). -/
def viewport_get_latitude_at (src : MapSource) (priv : ViewPriv) (y : Int) : ℚ :=
  src.get_latitude priv.zoom_level (y : ℚ)

/-- Longitude at the viewport center, `viewport_get_current_longitude`
(champlain-view.c:236-244).  The `gint` argument is the truncation of
`anchor.x + viewport.x + width / 2.0`, computed exactly over the integers
as `(2 * (anchor.x + viewport.x) + width).tdiv 2`. -/
def viewport_get_current_longitude (src : MapSource) (priv : ViewPriv) : ℚ :=
  match priv.map with
  | none => 0
  | some _ => viewport_get_longitude_at src priv
      ((2 * (priv.anchorX + priv.viewportX) + priv.viewportW).tdiv 2)

/-- Latitude at the viewport center, `viewport_get_current_latitude`
(champlain-view.c:256-265). -/
def viewport_get_current_latitude (src : MapSource) (priv : ViewPriv) : ℚ :=
  match priv.map with
  | none => 0
  | some _ => viewport_get_latitude_at src priv
      ((2 * (priv.anchorY + priv.viewportY) + priv.viewportH).tdiv 2)

/-- Recenter operation, `champlain_view_center_on`
(champlain-view.c:1379-1417): store the requested coordinate, lazily create
the map, project, update the anchor, move the tidy viewport's raw origin to
`(x - anchor.x - w/2, y - anchor.y - h/2)` (the synchronous origin-notify
handler stores the `gint` copy of the new origin — its truncation, computed
exactly over the integers as `(2*x - w).tdiv 2`) and run the
reconciliation.  The notify handler's re-derivation of latitude/longitude
by inverse projection (a projection round trip of the just-stored values)
is not re-modelled on top of the stored request. -/
def champlain_view_center_on (src : MapSource) (priv : ViewPriv)
    (latitude longitude : ℚ) : ViewPriv :=
  let priv := { priv with longitude := longitude, latitude := latitude }
  let priv := if priv.map.isNone then create_initial_map src priv else priv
  let x := src.get_x priv.zoom_level longitude
  let y := src.get_y priv.zoom_level latitude
  let priv := view_update_anchor src priv x y
  let x := x - priv.anchorX
  let y := y - priv.anchorY
  let ox : ℚ := (x : ℚ) - (priv.viewportW : ℚ) / 2
  let oy : ℚ := (y : ℚ) - (priv.viewportH : ℚ) / 2
  let priv := { priv with originX := ox, originY := oy,
                          viewportX := (2 * x - priv.viewportW).tdiv 2,
                          viewportY := (2 * y - priv.viewportH).tdiv 2 }
  match view_load_visible_tiles src priv with
  | some p => p
  | none => priv

/-- Stop of the go-to animation, `champlain_view_stop_go_to`
(champlain-view.c:1453-1472): a no-op without a context; otherwise the
timeline is stopped and released, one `animation-completed::go-to`
notification is emitted, and the context is freed. -/
def champlain_view_stop_go_to (priv : ViewPriv) : ViewPriv :=
  match priv.goto_context with
  | none => priv
  | some ctx =>
    { priv with aliveTimelines := priv.aliveTimelines.erase ctx.timeline,
                animCompleted := priv.animCompleted + 1,
                goto_context := none }

/-- Completion handler of the go-to timeline, `timeline_completed`
(champlain-view.c:1437-1442): it only calls `champlain_view_stop_go_to`. -/
def timeline_completed (priv : ViewPriv) : ViewPriv :=
  champlain_view_stop_go_to priv

/-- Frame handler of the go-to timeline, `timeline_new_frame`
(champlain-view.c:1419-1435): interpolate between the context's endpoints
by the easing fraction `alpha` and recenter there. -/
def timeline_new_frame (src : MapSource) (priv : ViewPriv) (ctx : GoToContext)
    (alpha : ℚ) : ViewPriv :=
  let lat := ctx.to_latitude - ctx.from_latitude
  let lon := ctx.to_longitude - ctx.from_longitude
  champlain_view_center_on src priv
    (ctx.from_latitude + alpha * lat) (ctx.from_longitude + alpha * lon)

/-- Timed recenter, `champlain_view_go_to_with_duration`
(champlain-view.c:1497-1544): duration zero recenters immediately;
otherwise any running animation is stopped and discarded first, and a fresh
context capturing the current center is created with a freshly started
timeline. -/
def champlain_view_go_to_with_duration (src : MapSource) (priv : ViewPriv)
    (latitude longitude : ℚ) (duration : Nat) : ViewPriv :=
  if duration = 0 then champlain_view_center_on src priv latitude longitude
  else
    let priv := champlain_view_stop_go_to priv
    let tl := priv.nextTimeline
    let ctx : GoToContext :=
      ⟨tl, latitude, longitude, priv.latitude, priv.longitude⟩
    { priv with goto_context := some ctx,
                aliveTimelines := tl :: priv.aliveTimelines,
                nextTimeline := tl + 1 }

/-- Default-duration go-to, `champlain_view_go_to`
(champlain-view.c:1486-1494): duration `500 * zoom_level / 2.0`
milliseconds. -/
def champlain_view_go_to (src : MapSource) (priv : ViewPriv)
    (latitude longitude : ℚ) : ViewPriv :=
  champlain_view_go_to_with_duration src priv latitude longitude
    (250 * priv.zoom_level).toNat

/-- Delivery of a timeline `new-frame` event: the handler is connected to
the context's own timeline object, so it runs only while that timeline is
the live one owned by the current context. -/
def deliver_new_frame (src : MapSource) (priv : ViewPriv) (tl : Nat)
    (alpha : ℚ) : ViewPriv :=
  match priv.goto_context with
  | some ctx =>
    if ctx.timeline = tl ∧ tl ∈ priv.aliveTimelines
    then timeline_new_frame src priv ctx alpha else priv
  | none => priv

/-- Delivery of a timeline `completed` event: `timeline_completed` runs only
while the emitting timeline is the live one owned by the current context
(a stopped and released timeline emits nothing). -/
def deliver_completed (priv : ViewPriv) (tl : Nat) : ViewPriv :=
  match priv.goto_context with
  | some ctx =>
    if ctx.timeline = tl ∧ tl ∈ priv.aliveTimelines
    then timeline_completed priv else priv
  | none => priv

/-- A run of animation frames delivered by the external frame clock to
timeline `tl` with the given easing fractions, in order. -/
def run_frames (src : MapSource) (priv : ViewPriv) (tl : Nat) :
    List ℚ → ViewPriv
  | [] => priv
  | a :: rest => run_frames src (deliver_new_frame src priv tl a) tl rest

/-- The guard macro `ZOOM_LEVEL_OUT_OF_RANGE` (champlain-view.c:104). -/
def ZOOM_LEVEL_OUT_OF_RANGE (priv : ViewPriv) (level : Int) : Bool :=
  decide (level < priv.min_zoom_level) || decide (priv.max_zoom_level < level)

/-- Plain zoom change, `champlain_view_set_zoom_level`
(champlain-view.c:1591-1628), a void function: no-op without a map or when
the requested level equals the current one or is out of range; otherwise
stop any go-to, swap the zoom level grid, and re-center on the previously
displayed coordinate. -/
def champlain_view_set_zoom_level (src : MapSource) (priv : ViewPriv)
    (zoom_level : Int) : ViewPriv :=
  if priv.map.isNone then priv
  else if zoom_level == priv.zoom_level || ZOOM_LEVEL_OUT_OF_RANGE priv zoom_level then priv
  else
    let priv := champlain_view_stop_go_to priv
    let priv := { priv with map := some (map_zoom_to src zoom_level) }
    let priv := { priv with zoom_level := zoom_level }
    let longitude := priv.longitude
    let latitude := priv.latitude
    champlain_view_center_on src priv latitude longitude

/-- Zoom change keeping a screen point fixed, `view_set_zoom_level_at`
(champlain-view.c:2318-2379), returning a `gboolean`: `FALSE` without any
mutation when the requested level equals the current one or is out of
range; otherwise re-center so the geographic point under `(x, y)` stays
under it.  The finger-scroll actor's transformed position is modelled at
the origin, so `rel_x`/`rel_y` coincide with `x`/`y`. -/
def view_set_zoom_level_at (src : MapSource) (priv : ViewPriv)
    (zoom_level x y : Int) : Bool × ViewPriv :=
  if zoom_level == priv.zoom_level || ZOOM_LEVEL_OUT_OF_RANGE priv zoom_level then (false, priv)
  else
    let priv := champlain_view_stop_go_to priv
    let rel_x := x
    let rel_y := y
    let lon := viewport_get_longitude_at src priv (priv.viewportX + rel_x + priv.anchorX)
    let lat := viewport_get_latitude_at src priv (priv.viewportY + rel_y + priv.anchorY)
    let x_diff := priv.viewportW.ediv 2 - rel_x
    let y_diff := priv.viewportH.ediv 2 - rel_y
    let priv := { priv with map := some (map_zoom_to src zoom_level),
                            zoom_level := zoom_level }
    let x2 := src.get_x priv.zoom_level lon
    let y2 := src.get_y priv.zoom_level lat
    let lon2 := src.get_longitude priv.zoom_level ((x2 + x_diff : Int) : ℚ)
    let lat2 := src.get_latitude priv.zoom_level ((y2 + y_diff : Int) : ℚ)
    (true, champlain_view_center_on src priv lat2 lon2)

/-- View resize, `champlain_view_set_size` (champlain-view.c:1117-1136):
store the new extent, then either re-center on the current coordinate
(`keep_center_on_resize`) or run the reconciliation directly — the latter
dereferences the absent map on a pre-map view, so the result is `none`
(a crash) there.  `license_set_position` and `resize_viewport` touch no
modelled field (`resize_viewport` returns early without a map). -/
def champlain_view_set_size (src : MapSource) (priv : ViewPriv)
    (width height : Int) : Option ViewPriv :=
  let priv := { priv with viewportW := width, viewportH := height }
  if priv.keep_center_on_resize
  then some (champlain_view_center_on src priv priv.latitude priv.longitude)
  else view_load_visible_tiles src priv

/-- Scroll/origin-notify handler, `viewport_pos_changed_cb`
(champlain-view.c:1064-1114): ignore a spurious notify; recompute the
anchor for the new origin's center (the truncation of
`rect + anchor + extent / 2.0`, computed exactly over the integers); when
the anchor's x component changed, compensate the raw origin by the anchor
delta and return (the stored copy, the tile set and the coordinate
read-back are left for the re-entrant notify); otherwise store the origin,
reconcile the tiles and re-derive the displayed coordinate.  The scrolled
origin is modelled at integer pixel positions, where the `gfloat`/`gint`
conversions are the identity.  The result is `none` when the
reconciliation dereferences an absent map. -/
def viewport_pos_changed_cb (src : MapSource) (priv : ViewPriv)
    (rectX rectY : Int) : Option ViewPriv :=
  if rectX = priv.viewportX ∧ rectY = priv.viewportY then some priv
  else
    let old_x := priv.anchorX
    let old_y := priv.anchorY
    let cx := (2 * (rectX + priv.anchorX) + priv.viewportW).tdiv 2
    let cy := (2 * (rectY + priv.anchorY) + priv.viewportH).tdiv 2
    let priv := view_update_anchor src priv cx cy
    if priv.anchorX - old_x ≠ 0 then
      let diffX := priv.anchorX - old_x
      let diffY := priv.anchorY - old_y
      some { priv with originX := ((rectX - diffX : Int) : ℚ),
                       originY := ((rectY - diffY : Int) : ℚ) }
    else
      let priv := { priv with viewportX := rectX, viewportY := rectY,
                              originX := (rectX : ℚ), originY := (rectY : ℚ) }
      match view_load_visible_tiles src priv with
      | none => none
      | some p =>
        some { p with longitude := viewport_get_current_longitude src p,
                      latitude := viewport_get_current_latitude src p }

/-- The fitting test of `champlain_view_ensure_visible`
(champlain-view.c:2234-2252): the projected pixel spans of the unpadded
bounding box at the candidate zoom, compared (as `guint` values) against
the viewport extent. -/
def ensureFit (src : MapSource) (priv : ViewPriv)
    (min_lat min_lon max_lat max_lon : ℚ) (zoom_level : Int) : Bool :=
  let min_x := src.get_x zoom_level min_lon
  let min_y := src.get_y zoom_level min_lat
  let max_x := src.get_x zoom_level max_lon
  let max_y := src.get_y zoom_level max_lat
  decide (guintWrap (min_y - max_y) ≤ guintWrap priv.viewportH) &&
  decide (guintWrap (max_x - min_x) ≤ guintWrap priv.viewportW)

/-- The descending do-while search of `champlain_view_ensure_visible`:
test the current zoom; on failure decrement and break once the level
reaches `min_zoom_level` (which is therefore itself never tested when
reached by decrementing).  Returns `good_size` and the final zoom. -/
def ensure_visible_loop (fit : Int → Bool) (min_zoom : Int) :
    Nat → Int → Bool × Int
  | 0, zoom => (false, zoom)
  | fuel + 1, zoom =>
    if fit zoom then (true, zoom)
    else
      let zoom := zoom - 1
      if zoom ≤ min_zoom then (false, zoom)
      else ensure_visible_loop fit min_zoom fuel zoom

/-- Fit-both-points operation, `champlain_view_ensure_visible`
(champlain-view.c:2191-2266): sort the coordinates, scale the spans by
1.1, search downward from the current zoom for a level whose unpadded
pixel box fits the viewport, fall back to `min_zoom_level` at the origin,
switch zoom and recenter (or animate) to `min + padded span / 2`. -/
def champlain_view_ensure_visible (src : MapSource) (priv : ViewPriv)
    (lat1 lon1 lat2 lon2 : ℚ) (animate : Bool) : ViewPriv :=
  let minmax_lat := if lat1 < lat2 then (lat1, lat2) else (lat2, lat1)
  let minmax_lon := if lon1 < lon2 then (lon1, lon2) else (lon2, lon1)
  let min_lat := minmax_lat.1
  let max_lat := minmax_lat.2
  let min_lon := minmax_lon.1
  let max_lon := minmax_lon.2
  let width := (max_lon - min_lon) * (11 / 10)
  let height := (max_lat - min_lat) * (11 / 10)
  let fuel := (priv.zoom_level - priv.min_zoom_level).toNat + 1
  let res := ensure_visible_loop
    (ensureFit src priv min_lat min_lon max_lat max_lon) priv.min_zoom_level
    fuel priv.zoom_level
  let good_size := res.1
  let fb := if good_size then (res.2, min_lat, min_lon, width, height)
            else (priv.min_zoom_level, 0, 0, 0, 0)
  let zoom_level := fb.1
  let min_lat := fb.2.1
  let min_lon := fb.2.2.1
  let width := fb.2.2.2.1
  let height := fb.2.2.2.2
  let priv := champlain_view_set_zoom_level src priv zoom_level
  if animate then
    champlain_view_go_to src priv (min_lat + height / 2) (min_lon + width / 2)
  else
    champlain_view_center_on src priv (min_lat + height / 2) (min_lon + width / 2)

/-!  Concrete fixtures used to evaluate the embedded operations at specific
inputs: a default view state, and small map sources whose projection
functions are simple enough to compute with. -/

/-- A view state with every field at its `champlain_view_init` default. -/
def basePriv : ViewPriv :=
  { zoom_level := 0, min_zoom_level := 0, max_zoom_level := 20,
    longitude := 0, latitude := 0, anchorX := 0, anchorY := 0,
    anchor_zoom_level := 0, map := none, originX := 0, originY := 0,
    viewportX := 0, viewportY := 0, viewportW := 0, viewportH := 0,
    keep_center_on_resize := true, state := ChamplainState.Init,
    goto_context := none, aliveTimelines := [], nextTimeline := 0,
    animCompleted := 0 }

/-- A map source with a 256-tile grid of 256 columns and rows per level and
a constant projection. -/
def srcZero : MapSource :=
  ⟨fun _ _ => 0, fun _ _ => 0, fun _ _ => 0, fun _ _ => 0,
   256, 0, 20, fun _ => 256, fun _ => 256⟩

/-- A minimal map source: 16-pixel tiles on a 1 by 1 grid. -/
def srcUnit : MapSource :=
  ⟨fun _ _ => 0, fun _ _ => 0, fun _ _ => 0, fun _ _ => 0,
   16, 0, 20, fun _ => 1, fun _ => 1⟩

/-- A tiny map source: 16-pixel tiles on a 2 by 2 grid. -/
def srcTiny : MapSource :=
  ⟨fun _ _ => 0, fun _ _ => 0, fun _ _ => 0, fun _ _ => 0,
   16, 0, 20, fun _ => 2, fun _ => 2⟩

/-- A map source with 256-pixel tiles on a 100 by 100 grid. -/
def srcGrid100 : MapSource :=
  ⟨fun _ _ => 0, fun _ _ => 0, fun _ _ => 0, fun _ _ => 0,
   256, 0, 20, fun _ => 100, fun _ => 100⟩

/-- A map source whose projected spans are 1000 pixels from zoom 4 on and
zero below, so a bounding box away from the origin stops fitting the
48-pixel viewport at zooms 4 and 5. -/
def srcStep : MapSource :=
  ⟨fun z lon => if 4 ≤ z then (if lon < 1 then 0 else 1000) else 0,
   fun z lat => if 4 ≤ z then (if lat < 1 then 1000 else 0) else 0,
   fun _ _ => 0, fun _ _ => 0, 16, 0, 20, fun _ => 2, fun _ => 2⟩

/-- A `Done` tile of the zoom-8 grid, sitting inside the covering range of
the `privScrollY` scroll event. -/
def tileDoneC1 : ChamplainTile := ⟨1, 264, 8, ChamplainState.Done, true⟩

/-- A zoom-8 view whose anchor will be recomputed on the next scroll with
`anchor.x` unchanged (clamped at 0) but `anchor.y` moved: the vertical span
`y - anchor.y + height` crosses `G_MAXINT16` while the horizontal one does
not. -/
def privScrollY : ViewPriv :=
  { basePriv with
    zoom_level := 8, anchor_zoom_level := 8, anchorX := 0, anchorY := 20000,
    map := some ⟨⟨8, 256, 256, 256, [tileDoneC1]⟩⟩,
    originX := 0, originY := 31500, viewportX := 0, viewportY := 31000,
    viewportW := 1000, viewportH := 1000, state := ChamplainState.Done }

/-- A zoom-8 view whose anchor will be recomputed on the next scroll with
both components moving (`anchor_zoom_level` is stale, and the recomputed
`anchor.x` differs from the current one). -/
def privScrollX : ViewPriv :=
  { basePriv with
    zoom_level := 8, anchor_zoom_level := 0, anchorX := 10000, anchorY := 10000,
    map := some ⟨⟨8, 256, 256, 256, [tileDoneC1]⟩⟩,
    originX := 20000, originY := 20000, viewportX := 0, viewportY := 0,
    viewportW := 1000, viewportH := 1000, state := ChamplainState.Done }

/-- A view over the tiny 2 by 2 grid whose 48-pixel viewport makes the
covering range `[0, 4)` per axis overrun the grid's 2 columns and rows
while staying far below its 32-pixel extent. -/
def privCover : ViewPriv :=
  { basePriv with
    zoom_level := 3, anchor_zoom_level := 3,
    map := some ⟨⟨3, 2, 2, 16, []⟩⟩,
    viewportW := 48, viewportH := 48, state := ChamplainState.Done }

/-- A zoom-8 view over the 100 by 100 grid with a stale anchor zoom, so the
next anchor update recomputes both components. -/
def privAnchor : ViewPriv :=
  { basePriv with
    zoom_level := 8, anchor_zoom_level := 0,
    map := some ⟨⟨8, 100, 100, 256, []⟩⟩,
    viewportW := 100, viewportH := 100, state := ChamplainState.Done }

/-- The map model of `privAnchor`. -/
def mapGrid100 : Map := ⟨⟨8, 100, 100, 256, []⟩⟩

/-- A view with an active map at zoom 3, for exercising the zoom-change
guards. -/
def privGuard : ViewPriv :=
  { basePriv with
    zoom_level := 3, anchor_zoom_level := 3, min_zoom_level := 1,
    max_zoom_level := 18, map := some ⟨⟨3, 8, 8, 16, []⟩⟩,
    state := ChamplainState.Done }

/-- A view with a go-to animation in flight toward `(10, 10)`: context
owning live timeline 0, started from `(0, 0)`. -/
def privAnim : ViewPriv :=
  { basePriv with
    map := some ⟨⟨0, 1, 1, 16, []⟩⟩, state := ChamplainState.Done,
    goto_context := some ⟨0, 10, 10, 0, 0⟩,
    aliveTimelines := [0], nextTimeline := 1 }

/-- A view over the tiny grid at zoom 5 for `ensure_visible`; the constant
projection makes every bounding box fit at the current zoom. -/
def privBox : ViewPriv :=
  { basePriv with
    zoom_level := 5, anchor_zoom_level := 5,
    map := some ⟨⟨5, 2, 2, 16, []⟩⟩,
    viewportW := 48, viewportH := 48, state := ChamplainState.Done }

/-- A view over the `srcStep` source at zoom 5: the box `(0,0)-(10,10)`
projects to a 1000-pixel span at zooms 4 and 5 and to zero below, so the
tightest fitting zoom is 3. -/
def privStep : ViewPriv :=
  { basePriv with
    zoom_level := 5, anchor_zoom_level := 5,
    map := some ⟨⟨5, 2, 2, 16, []⟩⟩,
    viewportW := 48, viewportH := 48, state := ChamplainState.Done }

/-- A pre-map view (`priv->map == NULL`, nothing centered yet) that does
not keep its center on resize. -/
def privPreMap : ViewPriv :=
  { basePriv with keep_center_on_resize := false }

/-- A view over the tiny grid with one stale tile recorded outside the
covering range, about to be reconciled. -/
def privSmall : ViewPriv :=
  { basePriv with
    zoom_level := 3, anchor_zoom_level := 3,
    map := some ⟨⟨3, 2, 2, 16, [⟨9, 9, 3, ChamplainState.Done, true⟩]⟩⟩,
    viewportW := 16, viewportH := 16, state := ChamplainState.Done }

/-- The reconciled form of `privSmall`. -/
def privSmallR : ViewPriv :=
  (view_load_visible_tiles srcTiny privSmall).getD privSmall

/-- The half-open covering range the load pass fills:
`[x_first, x_count) × [y_first, y_count)`. -/
def inLoadRange (r : TileRange) (x y : Int) : Prop :=
  r.x_first ≤ x ∧ x < r.x_count ∧ r.y_first ≤ y ∧ y < r.y_count

/-- The inclusive range the eviction pass spares:
`[x_first, x_count] × [y_first, y_count]`. -/
def inKeepRange (r : TileRange) (x y : Int) : Prop :=
  r.x_first ≤ x ∧ x ≤ r.x_count ∧ r.y_first ≤ y ∧ y ≤ r.y_count

instance (r : TileRange) (x y : Int) : Decidable (inLoadRange r x y) := by
  unfold inLoadRange; infer_instance

instance (r : TileRange) (x y : Int) : Decidable (inKeepRange r x y) := by
  unfold inKeepRange; infer_instance

/-!  Theorems. -/

theorem mem_intRange {lo hi a : Int} : a ∈ intRange lo hi ↔ lo ≤ a ∧ a < hi := by
  simp only [intRange, List.mem_map, List.mem_range]
  constructor
  · rintro ⟨n, hn, rfl⟩
    omega
  · intro h
    exact ⟨(a - lo).toNat, by omega, by omega⟩

theorem mem_rangeCells {xf xc yf yc : Int} {c : Int × Int} :
    c ∈ rangeCells xf xc yf yc ↔
      (xf ≤ c.1 ∧ c.1 < xc) ∧ (yf ≤ c.2 ∧ c.2 < yc) := by
  obtain ⟨i, j⟩ := c
  simp only [rangeCells, List.mem_flatMap, List.mem_map, Prod.mk.injEq]
  constructor
  · rintro ⟨a, ha, b, hb, rfl, rfl⟩
    exact ⟨mem_intRange.mp ha, mem_intRange.mp hb⟩
  · rintro ⟨h1, h2⟩
    exact ⟨i, mem_intRange.mpr h1, j, mem_intRange.mpr h2, rfl, rfl⟩

theorem tileAt_iff {tiles : List ChamplainTile} {x y : Int} :
    tileAt tiles x y = true ↔ ∃ t ∈ tiles, t.x = x ∧ t.y = y := by
  simp [tileAt, List.any_eq_true]

theorem tileKept_iff {r : TileRange} {t : ChamplainTile} :
    tileKept r t = true ↔ inKeepRange r t.x t.y := by
  simp only [tileKept, inKeepRange, Bool.not_eq_true', Bool.or_eq_false_iff,
    decide_eq_false_iff_not, not_lt]
  omega

theorem tileAt_filter_kept {r : TileRange} {tiles : List ChamplainTile} {x y : Int} :
    tileAt (tiles.filter (tileKept r)) x y = true ↔
      tileAt tiles x y = true ∧ inKeepRange r x y := by
  rw [tileAt_iff, tileAt_iff]
  constructor
  · rintro ⟨t, ht, hx, hy⟩
    rcases List.mem_filter.mp ht with ⟨htm, hkept⟩
    rw [tileKept_iff] at hkept
    subst hx; subst hy
    exact ⟨⟨t, htm, rfl, rfl⟩, hkept⟩
  · rintro ⟨⟨t, htm, hx, hy⟩, hb⟩
    subst hx; subst hy
    exact ⟨t, List.mem_filter.mpr ⟨htm, tileKept_iff.mpr hb⟩, rfl, rfl⟩

theorem loadLoop_subset {zoom : Int} {cells : List (Int × Int)}
    {tiles : List ChamplainTile} {f : List (Int × Int)} {t : ChamplainTile}
    (h : t ∈ tiles) : t ∈ (loadLoop zoom cells tiles f).1 := by
  induction cells generalizing tiles f with
  | nil => simpa [loadLoop] using h
  | cons c rest ih =>
    rw [loadLoop]
    by_cases hc : tileAt tiles c.1 c.2 = true
    · rw [if_pos hc]; exact ih h
    · rw [if_neg hc]; exact ih (List.mem_append_left _ h)

theorem loadLoop_mem_elim {zoom : Int} {cells : List (Int × Int)}
    {tiles : List ChamplainTile} {f : List (Int × Int)} {t : ChamplainTile}
    (h : t ∈ (loadLoop zoom cells tiles f).1) :
    t ∈ tiles ∨ ∃ c ∈ cells, t = champlain_tile_new zoom c.1 c.2 := by
  induction cells generalizing tiles f with
  | nil => exact Or.inl (by simpa [loadLoop] using h)
  | cons c rest ih =>
    rw [loadLoop] at h
    by_cases hc : tileAt tiles c.1 c.2 = true
    · rw [if_pos hc] at h
      rcases ih h with h | ⟨c', hc', ht⟩
      · exact Or.inl h
      · exact Or.inr ⟨c', List.mem_cons_of_mem _ hc', ht⟩
    · rw [if_neg hc] at h
      rcases ih h with h | ⟨c', hc', ht⟩
      · rcases List.mem_append.mp h with h | h
        · exact Or.inl h
        · simp only [List.mem_singleton] at h
          exact Or.inr ⟨c, List.mem_cons_self c rest, h⟩
      · exact Or.inr ⟨c', List.mem_cons_of_mem _ hc', ht⟩

theorem loadLoop_tileAt {zoom : Int} {cells : List (Int × Int)}
    {tiles : List ChamplainTile} {f : List (Int × Int)} {x y : Int} :
    tileAt (loadLoop zoom cells tiles f).1 x y = true ↔
      tileAt tiles x y = true ∨ (x, y) ∈ cells := by
  induction cells generalizing tiles f with
  | nil => simp [loadLoop]
  | cons c rest ih =>
    rw [loadLoop]
    by_cases hc : tileAt tiles c.1 c.2 = true
    · rw [if_pos hc, ih, List.mem_cons]
      constructor
      · rintro (h | h)
        · exact Or.inl h
        · exact Or.inr (Or.inr h)
      · rintro (h | h | h)
        · exact Or.inl h
        · subst h
          exact Or.inl hc
        · exact Or.inr h
    · rw [if_neg hc, ih, List.mem_cons]
      have happ : tileAt (tiles ++ [champlain_tile_new zoom c.1 c.2]) x y = true ↔
          tileAt tiles x y = true ∨ (x, y) = c := by
        simp only [tileAt, List.any_append, List.any_cons, List.any_nil,
          Bool.or_false, Bool.or_eq_true, Bool.and_eq_true, beq_iff_eq,
          champlain_tile_new, Prod.ext_iff]
        constructor
        · rintro (h | ⟨h1, h2⟩)
          · exact Or.inl h
          · exact Or.inr ⟨h1.symm, h2.symm⟩
        · rintro (h | ⟨h1, h2⟩)
          · exact Or.inl h
          · exact Or.inr ⟨h1.symm, h2.symm⟩
      rw [happ]
      tauto

theorem loadLoop_all_occupied {zoom : Int} {cells : List (Int × Int)}
    {tiles : List ChamplainTile} {f : List (Int × Int)}
    (h : ∀ c ∈ cells, tileAt tiles c.1 c.2 = true) :
    loadLoop zoom cells tiles f = (tiles, f) := by
  induction cells with
  | nil => rfl
  | cons c rest ih =>
    rw [loadLoop, if_pos (h c (List.mem_cons_self c rest))]
    exact ih fun c' hc' => h c' (List.mem_cons_of_mem _ hc')

/-- C10: calling `champlain_view_stop_go_to` with no go-to in flight is a
no-op that changes no state and emits no `animation-completed`
notification; with an animation in flight, one call stops (and releases)
its timeline, emits the notification exactly once, and clears the context,
so that a repeated call is again a no-op. -/
theorem stop_go_to_spec (priv : ViewPriv) :
    (priv.goto_context = none → champlain_view_stop_go_to priv = priv) ∧
    (∀ ctx, priv.goto_context = some ctx →
      (champlain_view_stop_go_to priv).aliveTimelines =
          priv.aliveTimelines.erase ctx.timeline ∧
      (champlain_view_stop_go_to priv).animCompleted = priv.animCompleted + 1 ∧
      (champlain_view_stop_go_to priv).goto_context = none ∧
      champlain_view_stop_go_to (champlain_view_stop_go_to priv) =
        champlain_view_stop_go_to priv) := by
  constructor
  · intro h
    simp [champlain_view_stop_go_to, h]
  · intro ctx h
    simp [champlain_view_stop_go_to, h]

/-- Witness for C10: the two behaviours at a concrete animating view. -/
theorem stop_go_to_spec_witness :
    privAnim.goto_context = some ⟨0, 10, 10, 0, 0⟩ ∧
    (champlain_view_stop_go_to privAnim).animCompleted = privAnim.animCompleted + 1 ∧
    (champlain_view_stop_go_to privAnim).goto_context = none ∧
    champlain_view_stop_go_to (champlain_view_stop_go_to privAnim) =
      champlain_view_stop_go_to privAnim :=
  ⟨rfl, ((stop_go_to_spec privAnim).2 ⟨0, 10, 10, 0, 0⟩ rfl).2.1,
    ((stop_go_to_spec privAnim).2 ⟨0, 10, 10, 0, 0⟩ rfl).2.2.1,
    ((stop_go_to_spec privAnim).2 ⟨0, 10, 10, 0, 0⟩ rfl).2.2.2⟩

/-- C6: starting a second `go_to` while a first is still running first
cancels and discards the prior `GoToContext` before creating the new one:
afterwards exactly one context is active (the fresh one, targeting the new
coordinates), the first context's timeline is no longer live, and delivery
of the first timeline's completion event is a no-op — its completion
callback never fires after it has been superseded. -/
theorem go_to_supersedes (src : MapSource) (priv : ViewPriv) (c1 : GoToContext)
    (lat lon : ℚ) (d : Nat)
    (h1 : priv.goto_context = some c1)
    (_halive : c1.timeline ∈ priv.aliveTimelines)
    (h2 : c1.timeline < priv.nextTimeline)
    (h3 : priv.aliveTimelines.Nodup)
    (hd : d ≠ 0) :
    (champlain_view_go_to_with_duration src priv lat lon d).goto_context =
      some ⟨priv.nextTimeline, lat, lon, priv.latitude, priv.longitude⟩ ∧
    priv.nextTimeline ≠ c1.timeline ∧
    c1.timeline ∉ (champlain_view_go_to_with_duration src priv lat lon d).aliveTimelines ∧
    deliver_completed (champlain_view_go_to_with_duration src priv lat lon d) c1.timeline =
      champlain_view_go_to_with_duration src priv lat lon d := by
  have hne : priv.nextTimeline ≠ c1.timeline := by omega
  have hgoto : champlain_view_go_to_with_duration src priv lat lon d =
      { champlain_view_stop_go_to priv with
        goto_context := some ⟨(champlain_view_stop_go_to priv).nextTimeline, lat, lon,
          (champlain_view_stop_go_to priv).latitude,
          (champlain_view_stop_go_to priv).longitude⟩,
        aliveTimelines := (champlain_view_stop_go_to priv).nextTimeline ::
          (champlain_view_stop_go_to priv).aliveTimelines,
        nextTimeline := (champlain_view_stop_go_to priv).nextTimeline + 1 } := by
    rw [champlain_view_go_to_with_duration, if_neg hd]
  have hstop : champlain_view_stop_go_to priv =
      { priv with aliveTimelines := priv.aliveTimelines.erase c1.timeline,
                  animCompleted := priv.animCompleted + 1,
                  goto_context := none } := by
    rw [champlain_view_stop_go_to, h1]
  have hmem : c1.timeline ∉ priv.aliveTimelines.erase c1.timeline := by
    intro hc
    exact ((List.Nodup.mem_erase_iff h3).mp hc).1 rfl
  refine ⟨?_, hne, ?_, ?_⟩
  · rw [hgoto, hstop]
  · rw [hgoto, hstop]
    simp only [List.mem_cons]
    rintro (hc | hc)
    · exact hne hc.symm
    · exact hmem hc
  · rw [hgoto, hstop]
    simp only [deliver_completed]
    rw [if_neg]
    simp only [ne_eq, not_and]
    intro hc
    exact absurd hc hne

/-- Witness for C6: superseding the running animation of `privAnim`. -/
theorem go_to_supersedes_witness :
    privAnim.goto_context = some ⟨0, 10, 10, 0, 0⟩ ∧
    (champlain_view_go_to_with_duration srcZero privAnim 20 30 100).goto_context =
      some ⟨privAnim.nextTimeline, 20, 30, privAnim.latitude, privAnim.longitude⟩ ∧
    (0 : Nat) ∉ (champlain_view_go_to_with_duration srcZero privAnim 20 30 100).aliveTimelines ∧
    deliver_completed (champlain_view_go_to_with_duration srcZero privAnim 20 30 100) 0 =
      champlain_view_go_to_with_duration srcZero privAnim 20 30 100 := by
  have h := go_to_supersedes srcZero privAnim ⟨0, 10, 10, 0, 0⟩ 20 30 100 rfl
    (by decide) (by decide) (by decide) (by decide)
  exact ⟨rfl, h.1, h.2.2.1, h.2.2.2⟩

/-- C4: a requested zoom level equal to the current one or outside
`[min_zoom_level, max_zoom_level]` makes both zoom-change operations
no-ops: the entire view state is returned unchanged (no partial mutation of
zoom level, grid, anchor or viewport), and the failure is indicated to the
caller — `view_set_zoom_level_at` returns `FALSE`, while the plain
`champlain_view_set_zoom_level` is a void function whose only observable,
the state, is untouched. -/
theorem set_zoom_level_invalid (src : MapSource) (priv : ViewPriv) (z x y : Int)
    (h : z = priv.zoom_level ∨ z < priv.min_zoom_level ∨ priv.max_zoom_level < z) :
    champlain_view_set_zoom_level src priv z = priv ∧
    view_set_zoom_level_at src priv z x y = (false, priv) := by
  have hguard : (z == priv.zoom_level || ZOOM_LEVEL_OUT_OF_RANGE priv z) = true := by
    rcases h with h | h | h <;> simp [ZOOM_LEVEL_OUT_OF_RANGE, h]
  constructor
  · rw [champlain_view_set_zoom_level]
    by_cases hm : priv.map.isNone
    · rw [if_pos hm]
    · rw [if_neg hm, if_pos hguard]
  · rw [view_set_zoom_level_at, if_pos hguard]

/-- Witness for C4: requesting the current zoom level of `privGuard` and an
out-of-range level both leave the state untouched and return failure. -/
theorem set_zoom_level_invalid_witness :
    (privGuard.zoom_level = 3 ∧ privGuard.max_zoom_level = 18) ∧
    champlain_view_set_zoom_level srcTiny privGuard 3 = privGuard ∧
    view_set_zoom_level_at srcTiny privGuard 19 100 100 = (false, privGuard) :=
  ⟨⟨rfl, rfl⟩,
    (set_zoom_level_invalid srcTiny privGuard 3 0 0 (Or.inl rfl)).1,
    (set_zoom_level_invalid srcTiny privGuard 19 100 100
      (Or.inr (Or.inr (by decide)))).2⟩

/-- C3 counterexample: at a concrete recomputation (zoom 8, stale anchor
zoom, center `(30000, 30000)`, 100-column grid of 256-pixel tiles), the
anchor produced by `view_update_anchor` is `13617`, not the claim's
`clamp(center - bound/2, 0, grid_extent - bound/2) = 9217`: the code's
upper clamp is `grid pixel extent * tile_size - bound/2`, not
`grid_extent - bound/2`. -/
theorem view_update_anchor_claim_cex :
    (view_update_anchor srcGrid100 privAnchor 30000 30000).anchorX ≠
      min (max (30000 - 16383) 0)
        (zoom_level_get_width (current_level privAnchor) - 16383) ∧
    (view_update_anchor srcGrid100 privAnchor 30000 30000).anchorX = 13617 := by
  decide

/-- C3 (amended): when the zoom level is below 8 the anchor is set to
`(0, 0)`; otherwise, when the zoom changed since the last computation or
the center minus the anchor plus the viewport extent reaches `G_MAXINT16`,
both components are recomputed as
`clamp(center - bound/2, 0, W * tile_size - bound/2)` where
`W = zoom_level_get_width(level)` is the grid's horizontal pixel extent —
the vertical axis is clamped by the same horizontal bound, and the bound
carries an extra factor of `tile_size`. -/
theorem view_update_anchor_spec (src : MapSource) (priv : ViewPriv) (m : Map)
    (x y : Int)
    (hm : priv.map = some m)
    (hW1 : 16383 ≤ zoom_level_get_width m.current_level * src.tile_size)
    (hW2 : zoom_level_get_width m.current_level * src.tile_size < 4294967296) :
    (priv.zoom_level < 8 →
       (view_update_anchor src priv x y).anchorX = 0 ∧
       (view_update_anchor src priv x y).anchorY = 0) ∧
    (8 ≤ priv.zoom_level →
      (priv.anchor_zoom_level ≠ priv.zoom_level ∨
       32767 ≤ x - priv.anchorX + priv.viewportW ∨
       32767 ≤ y - priv.anchorY + priv.viewportH) →
      (view_update_anchor src priv x y).anchorX =
        min (max (x - 16383) 0)
          (zoom_level_get_width m.current_level * src.tile_size - 16383) ∧
      (view_update_anchor src priv x y).anchorY =
        min (max (y - 16383) 0)
          (zoom_level_get_width m.current_level * src.tile_size - 16383)) := by
  have hcl : current_level priv = m.current_level := by
    simp [current_level, hm]
  have hwrap : guintWrap (guintWrap
      (zoom_level_get_width (current_level priv) * src.tile_size) - 16383) =
      zoom_level_get_width m.current_level * src.tile_size - 16383 := by
    rw [hcl, guintWrap, guintWrap,
      Int.emod_eq_of_lt (by omega) (by omega),
      Int.emod_eq_of_lt (by omega) (by omega)]
  constructor
  · intro hz
    have hna : decide (8 ≤ priv.zoom_level) = false := by
      simp only [decide_eq_false_iff_not]; omega
    simp [view_update_anchor, hna]
  · intro hz hupd
    have hna : decide (8 ≤ priv.zoom_level) = true := by simpa using hz
    have hnu : (decide (priv.anchor_zoom_level ≠ priv.zoom_level) ||
        decide (32767 ≤ x - priv.anchorX + priv.viewportW) ||
        decide (32767 ≤ y - priv.anchorY + priv.viewportH)) = true := by
      rcases hupd with h | h | h <;> simp [h]
    simp only [view_update_anchor, hna, hnu, Bool.true_and, if_true, hwrap]
    refine ⟨?_, ?_⟩ <;>
      · rw [Int.min_def, Int.max_def]
        split_ifs <;> omega

/-- Witness for C3: the amended clamp formula evaluated at the concrete
recomputation over the 100 by 100 grid. -/
theorem view_update_anchor_spec_witness :
    (8 ≤ privAnchor.zoom_level ∧
     privAnchor.anchor_zoom_level ≠ privAnchor.zoom_level) ∧
    (view_update_anchor srcGrid100 privAnchor 30000 40000).anchorX =
      min (max (30000 - 16383) 0)
        (zoom_level_get_width mapGrid100.current_level * srcGrid100.tile_size - 16383) ∧
    (view_update_anchor srcGrid100 privAnchor 30000 40000).anchorY =
      min (max (40000 - 16383) 0)
        (zoom_level_get_width mapGrid100.current_level * srcGrid100.tile_size - 16383) := by
  have h := (view_update_anchor_spec srcGrid100 privAnchor mapGrid100 30000 40000 rfl
    (by decide) (by decide)).2 (by decide) (Or.inl (by decide))
  exact ⟨⟨by decide, by decide⟩, h.1, h.2⟩

/-- C1 counterexample: a scroll event on `privScrollY` recomputes the
anchor with `anchor.x` unchanged and `anchor.y` moved; because
`viewport_pos_changed_cb` only compensates when the anchor's x component
changed, the viewport origin is left alone and the screen-space position of
the fixed `Done` tile `(1, 264)` — which survives the reconciliation —
jumps. -/
theorem viewport_pos_changed_claim_cex :
    (viewport_pos_changed_cb srcZero privScrollY 0 31500).map
        (fun p => (tile_screen_pos p 256 tileDoneC1).2) ≠
      some (tile_screen_pos privScrollY 256 tileDoneC1).2 := by
  have h : (viewport_pos_changed_cb srcZero privScrollY 0 31500).map
      (fun p => (p.anchorY, p.originY,
        tileAt (current_level p).tiles tileDoneC1.x tileDoneC1.y)) =
      some (35617, ((31500 : Int) : ℚ), true) := by decide
  rcases Option.map_eq_some'.mp h with ⟨p, hp, hfields⟩
  simp only [Prod.mk.injEq] at hfields
  obtain ⟨h1, h2, -⟩ := hfields
  rw [hp]
  simp only [Option.map_some', ne_eq, Option.some.injEq]
  have hY : privScrollY.anchorY = 20000 := rfl
  have hO : privScrollY.originY = 31500 := rfl
  simp only [tile_screen_pos, tileDoneC1, h1, h2, hY, hO]
  intro hc
  rw [show ((264 : Int) * 256 - 35617) = 31967 by norm_num,
      show ((264 : Int) * 256 - 20000) = 47584 by norm_num] at hc
  norm_num at hc

/-- C1 (amended): on a scroll event whose anchor recomputation changes the
anchor's x component, `viewport_pos_changed_cb` compensates the viewport's
raw origin by the anchor delta on both axes, so the screen-space rendered
position of every tile (raw position `x*size - anchor`, taken together with
the viewport origin) is unchanged by the anchor update; when only the y
component changes, no compensation happens (the counterexample's jump). -/
theorem viewport_pos_changed_compensates (src : MapSource) (priv : ViewPriv)
    (rectX rectY : Int) (size : Int)
    (hox : priv.originX = (rectX : ℚ)) (hoy : priv.originY = (rectY : ℚ))
    (hguard : ¬(rectX = priv.viewportX ∧ rectY = priv.viewportY))
    (hx : (view_update_anchor src priv
            ((2 * (rectX + priv.anchorX) + priv.viewportW).tdiv 2)
            ((2 * (rectY + priv.anchorY) + priv.viewportH).tdiv 2)).anchorX
          ≠ priv.anchorX) :
    ∀ t : ChamplainTile,
      (viewport_pos_changed_cb src priv rectX rectY).map
          (fun p => tile_screen_pos p size t) =
        some (tile_screen_pos priv size t) := by
  intro t
  have hx' : (view_update_anchor src priv
      ((2 * (rectX + priv.anchorX) + priv.viewportW).tdiv 2)
      ((2 * (rectY + priv.anchorY) + priv.viewportH).tdiv 2)).anchorX -
      priv.anchorX ≠ 0 := sub_ne_zero.mpr hx
  simp only [viewport_pos_changed_cb, if_neg hguard, ne_eq, hx', not_false_eq_true,
    if_true, Option.map_some', Option.some.injEq, tile_screen_pos, Prod.mk.injEq]
  rw [hox, hoy]
  constructor <;> (push_cast; ring)

/-- Witness for C1: a scroll on `privScrollX` moves the anchor's x
component, and the compensated origin keeps the screen position of the
fixed tile `(1, 264)` unchanged. -/
theorem viewport_pos_changed_compensates_witness :
    (view_update_anchor srcZero privScrollX
        ((2 * (20000 + privScrollX.anchorX) + privScrollX.viewportW).tdiv 2)
        ((2 * (20000 + privScrollX.anchorY) + privScrollX.viewportH).tdiv 2)).anchorX
      ≠ privScrollX.anchorX ∧
    (viewport_pos_changed_cb srcZero privScrollX 20000 20000).map
        (fun p => tile_screen_pos p 256 tileDoneC1) =
      some (tile_screen_pos privScrollX 256 tileDoneC1) :=
  ⟨by decide,
    viewport_pos_changed_compensates srcZero privScrollX 20000 20000 256
      (by decide) (by decide) (by decide) (by decide) tileDoneC1⟩

/-- C2 counterexample: on the 2 by 2 grid with 16-pixel tiles and a
48-pixel viewport at origin, the covering range is `[0, 4)` per axis and
the claim's clamp of `first + count` to the grid's columns/rows (2) would
forbid any tile with a coordinate `≥ 2`; but `view_load_visible_tiles`
clamps against `zoom_level_get_width` — the 32-pixel extent — and records
the tile `(3, 3)`. -/
theorem view_load_visible_tiles_claim_cex :
    (view_load_visible_tiles srcTiny privCover).map
        (fun p => (current_level p).tiles.all
          (fun t => decide (t.x < (current_level privCover).column_count) &&
                    decide (t.y < (current_level privCover).row_count))) =
      some false ∧
    (view_load_visible_tiles srcTiny privCover).map
        (fun p => tileAt (current_level p).tiles 3 3) = some true ∧
    visibleRange srcTiny privCover (current_level privCover) = ⟨0, 0, 4, 4⟩ := by
  refine ⟨by decide, by decide, by decide⟩

/-- C2 (amended): after one reconciliation run on a view with an active
zoom level, with `first = (clamped origin + anchor) / tile_size` and
`first + count = first + ceil(extent / tile_size) + 1` clamped against the
grid's pixel extent `columns * tile_size` (not against `columns`): every
grid cell of the half-open covering range `[first, first+count)` holds a
tile; every recorded tile is either a pre-existing one or a fresh tile in
state `Loading`; and a pre-existing tile survives exactly when it lies in
the inclusive range `[first, first+count]` (so a stale tile at exactly
`first+count` is retained though never created). -/
theorem view_load_visible_tiles_spec (src : MapSource) (priv : ViewPriv) (m : Map)
    (hm : priv.map = some m) :
    ∃ p m', view_load_visible_tiles src priv = some p ∧ p.map = some m' ∧
      (∀ x y : Int, tileAt m'.current_level.tiles x y = true ↔
        (inLoadRange (visibleRange src priv m.current_level) x y ∨
         (tileAt m.current_level.tiles x y = true ∧
          inKeepRange (visibleRange src priv m.current_level) x y))) ∧
      (∀ t ∈ m'.current_level.tiles,
        t ∈ m.current_level.tiles ∨ t.state = ChamplainState.Loading) ∧
      (∀ t ∈ m.current_level.tiles,
        (t ∈ m'.current_level.tiles ↔
         tileKept (visibleRange src priv m.current_level) t = true)) := by
  simp only [view_load_visible_tiles, hm]
  refine ⟨_, _, rfl, rfl, ?_, ?_, ?_⟩
  · intro x y
    rw [loadLoop_tileAt, tileAt_filter_kept, mem_rangeCells]
    unfold inLoadRange inKeepRange
    constructor
    · rintro (h | h)
      · exact Or.inr h
      · exact Or.inl ⟨h.1.1, h.1.2, h.2.1, h.2.2⟩
    · rintro (h | h)
      · exact Or.inr ⟨⟨h.1, h.2.1⟩, h.2.2.1, h.2.2.2⟩
      · exact Or.inl h
  · intro t ht
    rcases loadLoop_mem_elim ht with h | ⟨c, -, rfl⟩
    · exact Or.inl (List.mem_filter.mp h).1
    · exact Or.inr rfl
  · intro t ht
    constructor
    · intro htm
      rcases loadLoop_mem_elim htm with h | ⟨c, hc, rfl⟩
      · exact (List.mem_filter.mp h).2
      · rw [tileKept_iff]
        rcases mem_rangeCells.mp hc with ⟨h1, h2⟩
        exact ⟨h1.1, le_of_lt h1.2, h2.1, le_of_lt h2.2⟩
    · intro hk
      exact loadLoop_subset (List.mem_filter.mpr ⟨ht, hk⟩)

/-- Witness for C2: the reconciliation of `privSmall` (one stale tile at
`(9, 9)`) characterized by the amended coverage statement. -/
theorem view_load_visible_tiles_spec_witness :
    privSmall.map = some ⟨⟨3, 2, 2, 16, [⟨9, 9, 3, ChamplainState.Done, true⟩]⟩⟩ ∧
    (∃ p m', view_load_visible_tiles srcTiny privSmall = some p ∧ p.map = some m' ∧
      (∀ x y : Int, tileAt m'.current_level.tiles x y = true ↔
        (inLoadRange (visibleRange srcTiny privSmall
            (⟨⟨3, 2, 2, 16, [⟨9, 9, 3, ChamplainState.Done, true⟩]⟩⟩ : Map).current_level) x y ∨
         (tileAt (⟨⟨3, 2, 2, 16, [⟨9, 9, 3, ChamplainState.Done, true⟩]⟩⟩ : Map).current_level.tiles x y = true ∧
          inKeepRange (visibleRange srcTiny privSmall
            (⟨⟨3, 2, 2, 16, [⟨9, 9, 3, ChamplainState.Done, true⟩]⟩⟩ : Map).current_level) x y))) ∧
      (∀ t ∈ m'.current_level.tiles,
        t ∈ (⟨⟨3, 2, 2, 16, [⟨9, 9, 3, ChamplainState.Done, true⟩]⟩⟩ : Map).current_level.tiles ∨
          t.state = ChamplainState.Loading) ∧
      (∀ t ∈ (⟨⟨3, 2, 2, 16, [⟨9, 9, 3, ChamplainState.Done, true⟩]⟩⟩ : Map).current_level.tiles,
        (t ∈ m'.current_level.tiles ↔
         tileKept (visibleRange srcTiny privSmall
           (⟨⟨3, 2, 2, 16, [⟨9, 9, 3, ChamplainState.Done, true⟩]⟩⟩ : Map).current_level) t = true))) :=
  ⟨rfl, view_load_visible_tiles_spec srcTiny privSmall
    ⟨⟨3, 2, 2, 16, [⟨9, 9, 3, ChamplainState.Done, true⟩]⟩⟩ rfl⟩

/-- C7: the reconciliation is a fixed point after one run: with no
intervening change to viewport, anchor, zoom level or tile set, a second
`view_load_visible_tiles` issues zero fetch requests, evicts zero tiles,
and leaves the state identical. -/
theorem view_load_visible_tiles_idempotent (src : MapSource) (priv p : ViewPriv)
    (h : view_load_visible_tiles src priv = some p) :
    view_load_visible_tiles src p = some p ∧
    reconcileFetches src p = [] ∧
    reconcileEvicted src p = [] := by
  cases hm : priv.map with
  | none => simp [view_load_visible_tiles, hm] at h
  | some m =>
    simp only [view_load_visible_tiles, hm, Option.some.injEq] at h
    subst h
    set lvl := m.current_level with hlvl
    set r := visibleRange src priv lvl with hr
    set kept := lvl.tiles.filter (tileKept r) with hkept
    set loaded := (loadLoop lvl.level (rangeCells r.x_first r.x_count r.y_first r.y_count) kept []).1 with hloaded
    set p := view_update_state { priv with map := some ⟨{ lvl with tiles := loaded }⟩ } with hp
    have hpmap : p.map = some ⟨{ lvl with tiles := loaded }⟩ := rfl
    have hrange : visibleRange src p ({ lvl with tiles := loaded } : ZoomLevel) = r := rfl
    have hall : ∀ t ∈ loaded, tileKept r t = true := by
      intro t ht
      rcases loadLoop_mem_elim ht with h | ⟨c, hc, rfl⟩
      · exact (List.mem_filter.mp h).2
      · rw [tileKept_iff]
        rcases mem_rangeCells.mp hc with ⟨h1, h2⟩
        exact ⟨h1.1, le_of_lt h1.2, h2.1, le_of_lt h2.2⟩
    have hfilter : loaded.filter (tileKept r) = loaded :=
      List.filter_eq_self.mpr hall
    have hocc : ∀ c ∈ rangeCells r.x_first r.x_count r.y_first r.y_count,
        tileAt loaded c.1 c.2 = true := by
      intro c hc
      exact loadLoop_tileAt.mpr (Or.inr (by simpa using hc))
    have hloop : loadLoop lvl.level (rangeCells r.x_first r.x_count r.y_first r.y_count)
        (loaded.filter (tileKept r)) [] = (loaded, []) := by
      rw [hfilter]
      exact loadLoop_all_occupied hocc
    refine ⟨?_, ?_, ?_⟩
    · simp only [view_load_visible_tiles, hpmap, hrange, hloop]
      rfl
    · simp only [reconcileFetches, hpmap, hrange, hloop]
    · simp only [reconcileEvicted, hpmap, hrange]
      refine List.filter_eq_nil_iff.mpr ?_
      intro t ht
      simp [hall t ht]

/-- Witness for C7: reconciling `privSmall` once yields `privSmallR`, and
the second run is the identity with no fetches and no evictions. -/
theorem view_load_visible_tiles_idempotent_witness :
    view_load_visible_tiles srcTiny privSmall = some privSmallR ∧
    view_load_visible_tiles srcTiny privSmallR = some privSmallR ∧
    reconcileFetches srcTiny privSmallR = [] ∧
    reconcileEvicted srcTiny privSmallR = [] := by
  have h0 : view_load_visible_tiles srcTiny privSmall = some privSmallR := by decide
  have h := view_load_visible_tiles_idempotent srcTiny privSmall privSmallR h0
  exact ⟨h0, h.1, h.2.1, h.2.2⟩

theorem view_update_anchor_latitude (src : MapSource) (q : ViewPriv) (x y : Int) :
    (view_update_anchor src q x y).latitude = q.latitude := by
  simp only [view_update_anchor]
  split
  · rfl
  · split <;> rfl

theorem view_update_anchor_longitude (src : MapSource) (q : ViewPriv) (x y : Int) :
    (view_update_anchor src q x y).longitude = q.longitude := by
  simp only [view_update_anchor]
  split
  · rfl
  · split <;> rfl

theorem view_update_anchor_goto (src : MapSource) (q : ViewPriv) (x y : Int) :
    (view_update_anchor src q x y).goto_context = q.goto_context := by
  simp only [view_update_anchor]
  split
  · rfl
  · split <;> rfl

theorem view_update_anchor_alive (src : MapSource) (q : ViewPriv) (x y : Int) :
    (view_update_anchor src q x y).aliveTimelines = q.aliveTimelines := by
  simp only [view_update_anchor]
  split
  · rfl
  · split <;> rfl

theorem view_update_anchor_anim (src : MapSource) (q : ViewPriv) (x y : Int) :
    (view_update_anchor src q x y).animCompleted = q.animCompleted := by
  simp only [view_update_anchor]
  split
  · rfl
  · split <;> rfl

theorem view_update_anchor_next (src : MapSource) (q : ViewPriv) (x y : Int) :
    (view_update_anchor src q x y).nextTimeline = q.nextTimeline := by
  simp only [view_update_anchor]
  split
  · rfl
  · split <;> rfl

theorem view_update_anchor_map (src : MapSource) (q : ViewPriv) (x y : Int) :
    (view_update_anchor src q x y).map = q.map := by
  simp only [view_update_anchor]
  split
  · rfl
  · split <;> rfl

theorem view_load_visible_tiles_fields (src : MapSource) (priv p : ViewPriv)
    (h : view_load_visible_tiles src priv = some p) :
    p.goto_context = priv.goto_context ∧ p.aliveTimelines = priv.aliveTimelines ∧
    p.animCompleted = priv.animCompleted ∧ p.nextTimeline = priv.nextTimeline ∧
    p.latitude = priv.latitude ∧ p.longitude = priv.longitude ∧
    p.map.isSome = true := by
  cases hm : priv.map with
  | none => simp [view_load_visible_tiles, hm] at h
  | some m =>
    simp only [view_load_visible_tiles, hm, Option.some.injEq] at h
    subst h
    exact ⟨rfl, rfl, rfl, rfl, rfl, rfl, rfl⟩

theorem center_on_fields (src : MapSource) (priv : ViewPriv) (lat lon : ℚ) :
    (champlain_view_center_on src priv lat lon).latitude = lat ∧
    (champlain_view_center_on src priv lat lon).longitude = lon ∧
    (champlain_view_center_on src priv lat lon).goto_context = priv.goto_context ∧
    (champlain_view_center_on src priv lat lon).aliveTimelines = priv.aliveTimelines ∧
    (champlain_view_center_on src priv lat lon).animCompleted = priv.animCompleted ∧
    (champlain_view_center_on src priv lat lon).nextTimeline = priv.nextTimeline ∧
    (champlain_view_center_on src priv lat lon).map.isSome = true := by
  simp only [champlain_view_center_on]
  by_cases hm : priv.map.isNone = true
  all_goals simp only [hm, if_true, if_false, Bool.false_eq_true]
  all_goals split
  case pos.h_1 p hp =>
    obtain ⟨h1, h2, h3, h4, h5, h6, h7⟩ := view_load_visible_tiles_fields src _ p hp
    refine ⟨?_, ?_, ?_, ?_, ?_, ?_, h7⟩ <;>
      simp [h1, h2, h3, h4, h5, h6, view_update_anchor_latitude,
        view_update_anchor_longitude, view_update_anchor_goto,
        view_update_anchor_alive, view_update_anchor_anim,
        view_update_anchor_next, create_initial_map]
  case pos.h_2 hp =>
    refine ⟨?_, ?_, ?_, ?_, ?_, ?_, ?_⟩ <;>
      simp [view_update_anchor_latitude, view_update_anchor_longitude,
        view_update_anchor_goto, view_update_anchor_alive,
        view_update_anchor_anim, view_update_anchor_next,
        view_update_anchor_map, create_initial_map]
  case neg.h_1 p hp =>
    obtain ⟨h1, h2, h3, h4, h5, h6, h7⟩ := view_load_visible_tiles_fields src _ p hp
    refine ⟨?_, ?_, ?_, ?_, ?_, ?_, h7⟩ <;>
      simp [h1, h2, h3, h4, h5, h6, view_update_anchor_latitude,
        view_update_anchor_longitude, view_update_anchor_goto,
        view_update_anchor_alive, view_update_anchor_anim,
        view_update_anchor_next]
  case neg.h_2 hp =>
    refine ⟨?_, ?_, ?_, ?_, ?_, ?_, ?_⟩ <;>
      simp [view_update_anchor_latitude, view_update_anchor_longitude,
        view_update_anchor_goto, view_update_anchor_alive,
        view_update_anchor_anim, view_update_anchor_next,
        view_update_anchor_map]
    · cases hmm : priv.map with
      | none => simp [hmm] at hm
      | some m => simp

theorem deliver_new_frame_fields (src : MapSource) (q : ViewPriv) (tl : Nat) (a : ℚ) :
    (deliver_new_frame src q tl a).goto_context = q.goto_context ∧
    (deliver_new_frame src q tl a).aliveTimelines = q.aliveTimelines ∧
    (deliver_new_frame src q tl a).animCompleted = q.animCompleted := by
  cases hg : q.goto_context with
  | none => simp [deliver_new_frame, hg]
  | some c =>
    simp only [deliver_new_frame, hg, timeline_new_frame]
    split
    · obtain h := center_on_fields src q
        (c.from_latitude + a * (c.to_latitude - c.from_latitude))
        (c.from_longitude + a * (c.to_longitude - c.from_longitude))
      exact ⟨h.2.2.1.trans hg, h.2.2.2.1, h.2.2.2.2.1⟩
    · exact ⟨hg, rfl, rfl⟩

theorem run_frames_fields (src : MapSource) (tl : Nat) (as : List ℚ) :
    ∀ q : ViewPriv,
      (run_frames src q tl as).goto_context = q.goto_context ∧
      (run_frames src q tl as).aliveTimelines = q.aliveTimelines ∧
      (run_frames src q tl as).animCompleted = q.animCompleted := by
  induction as with
  | nil => exact fun q => ⟨rfl, rfl, rfl⟩
  | cons a rest ih =>
    intro q
    have h1 := deliver_new_frame_fields src q tl a
    have h2 := ih (deliver_new_frame src q tl a)
    exact ⟨h2.1.trans h1.1, h2.2.1.trans h1.2.1, h2.2.2.trans h1.2.2⟩

theorem run_frames_snoc (src : MapSource) (tl : Nat) (a : ℚ) (as : List ℚ) :
    ∀ q : ViewPriv,
      run_frames src q tl (as ++ [a]) =
        deliver_new_frame src (run_frames src q tl as) tl a := by
  induction as with
  | nil => exact fun q => rfl
  | cons b rest ih =>
    intro q
    exact ih (deliver_new_frame src q tl b)

/-- C5 counterexample: an animation toward `(10, 10)` whose driving clock
delivers one frame at easing fraction `1/2` and then the `completed`
event: `timeline_completed` only calls `champlain_view_stop_go_to`, which
performs no final `center_on`, so the view stays at latitude `5`, not the
requested `10` — the completion notification is emitted, but exact arrival
is not enforced by the completion handler. -/
theorem timeline_completed_claim_cex :
    privAnim.goto_context = some ⟨0, 10, 10, 0, 0⟩ ∧
    (deliver_completed (run_frames srcUnit privAnim 0 [1 / 2]) 0).animCompleted = 1 ∧
    (deliver_completed (run_frames srcUnit privAnim 0 [1 / 2]) 0).latitude ≠ 10 := by
  refine ⟨rfl, by decide, ?_⟩
  have h : (deliver_completed (run_frames srcUnit privAnim 0 [1 / 2]) 0).latitude
      = 0 + 1 / 2 * (10 - 0) := rfl
  rw [h]
  norm_num

/-- C5 (amended): when the driving timeline delivers a final frame at
easing fraction 1 before its `completed` event (as the clutter timeline
does), the last `center_on` lands exactly on the context's target: after
`completed`, the view's coordinate is exactly `(to_latitude,
to_longitude)`, the context is cleared, and exactly one completion
notification is emitted.  The completion handler itself performs no
`center_on`, so arrival depends on that final frame (the counterexample's
skipped final frame leaves the view mid-way). -/
theorem go_to_completion_spec (src : MapSource) (priv : ViewPriv)
    (ctx : GoToContext) (alphas : List ℚ)
    (hctx : priv.goto_context = some ctx)
    (halive : ctx.timeline ∈ priv.aliveTimelines) :
    (deliver_completed (run_frames src priv ctx.timeline (alphas ++ [1]))
        ctx.timeline).latitude = ctx.to_latitude ∧
    (deliver_completed (run_frames src priv ctx.timeline (alphas ++ [1]))
        ctx.timeline).longitude = ctx.to_longitude ∧
    (deliver_completed (run_frames src priv ctx.timeline (alphas ++ [1]))
        ctx.timeline).animCompleted = priv.animCompleted + 1 ∧
    (deliver_completed (run_frames src priv ctx.timeline (alphas ++ [1]))
        ctx.timeline).goto_context = none := by
  obtain ⟨hg1, ha1, hc1⟩ := run_frames_fields src ctx.timeline alphas priv
  rw [run_frames_snoc]
  set s1 := run_frames src priv ctx.timeline alphas with hs1
  rw [hctx] at hg1
  have hmem : ctx.timeline ∈ s1.aliveTimelines := by rw [ha1]; exact halive
  have hframe : deliver_new_frame src s1 ctx.timeline 1 =
      champlain_view_center_on src s1 ctx.to_latitude ctx.to_longitude := by
    have harg1 : ctx.from_latitude + 1 * (ctx.to_latitude - ctx.from_latitude) =
        ctx.to_latitude := by ring
    have harg2 : ctx.from_longitude + 1 * (ctx.to_longitude - ctx.from_longitude) =
        ctx.to_longitude := by ring
    simp only [deliver_new_frame, hg1, timeline_new_frame]
    rw [if_pos ⟨trivial, hmem⟩, harg1, harg2]
  rw [hframe]
  obtain ⟨k1, k2, k3, k4, k5, k6, k7⟩ :=
    center_on_fields src s1 ctx.to_latitude ctx.to_longitude
  set s2 := champlain_view_center_on src s1 ctx.to_latitude ctx.to_longitude with hs2
  have hg2 : s2.goto_context = some ctx := k3.trans hg1
  have hmem2 : ctx.timeline ∈ s2.aliveTimelines := by rw [k4]; exact hmem
  have hcomp : deliver_completed s2 ctx.timeline = champlain_view_stop_go_to s2 := by
    simp only [deliver_completed, hg2, timeline_completed]
    rw [if_pos ⟨trivial, hmem2⟩]
  rw [hcomp]
  have hstop : champlain_view_stop_go_to s2 =
      { s2 with aliveTimelines := s2.aliveTimelines.erase ctx.timeline,
                animCompleted := s2.animCompleted + 1,
                goto_context := none } := by
    rw [champlain_view_stop_go_to, hg2]
  rw [hstop]
  refine ⟨k1, k2, ?_, rfl⟩
  simp only [k5, hc1]

/-- Witness for C5: the animation of `privAnim` driven with frames at
fractions `1/2` and `1` and then completed arrives exactly at `(10, 10)`
with one completion notification. -/
theorem go_to_completion_spec_witness :
    privAnim.goto_context = some ⟨0, 10, 10, 0, 0⟩ ∧
    (deliver_completed (run_frames srcUnit privAnim 0 ([1 / 2] ++ [1])) 0).latitude = 10 ∧
    (deliver_completed (run_frames srcUnit privAnim 0 ([1 / 2] ++ [1])) 0).animCompleted = 1 ∧
    (deliver_completed (run_frames srcUnit privAnim 0 ([1 / 2] ++ [1])) 0).goto_context = none := by
  have h := go_to_completion_spec srcUnit privAnim ⟨0, 10, 10, 0, 0⟩ [1 / 2] rfl
    (by decide)
  exact ⟨rfl, h.1, h.2.2.1, h.2.2.2⟩

theorem sortPair_eq_minmax (a b : ℚ) :
    (if a < b then (a, b) else (b, a)) = (min a b, max a b) := by
  rcases lt_or_ge a b with h | h
  · rw [if_pos h, min_eq_left h.le, max_eq_right h.le]
  · rw [if_neg (not_lt.mpr h), min_eq_right h, max_eq_left h]

theorem ensure_visible_loop_found (fit : Int → Bool) (minZ zStar : Int)
    (hfit : fit zStar = true) :
    ∀ (fuel : Nat) (z0 : Int), minZ < zStar → zStar ≤ z0 →
      (∀ z, zStar < z → z ≤ z0 → fit z = false) →
      (z0 - zStar).toNat < fuel →
      ensure_visible_loop fit minZ fuel z0 = (true, zStar) := by
  intro fuel
  induction fuel with
  | zero => intro z0 _ _ _ hf; omega
  | succ n ih =>
    intro z0 h1 h2 habove hf
    rw [ensure_visible_loop]
    by_cases hz : z0 = zStar
    · subst hz
      rw [if_pos hfit]
    · have hlt : zStar < z0 := by omega
      rw [habove z0 hlt le_rfl]
      simp only [Bool.false_eq_true, if_false]
      rw [if_neg (by omega : ¬ z0 - 1 ≤ minZ)]
      exact ih (z0 - 1) h1 (by omega)
        (fun z hz1 hz2 => habove z hz1 (by omega)) (by omega)

theorem ensure_visible_loop_none (fit : Int → Bool) (minZ : Int) :
    ∀ (fuel : Nat) (z0 : Int), minZ < z0 →
      (∀ z, minZ < z → z ≤ z0 → fit z = false) →
      (z0 - minZ).toNat ≤ fuel →
      ensure_visible_loop fit minZ fuel z0 = (false, minZ) := by
  intro fuel
  induction fuel with
  | zero => intro z0 h0 _ hf; omega
  | succ n ih =>
    intro z0 h0 hnone hf
    rw [ensure_visible_loop]
    rw [hnone z0 h0 le_rfl]
    simp only [Bool.false_eq_true, if_false]
    by_cases hz : z0 - 1 ≤ minZ
    · rw [if_pos hz]
      have : z0 - 1 = minZ := by omega
      rw [this]
    · rw [if_neg hz]
      exact ih (z0 - 1) (by omega)
        (fun z hz1 hz2 => hnone z hz1 (by omega)) (by omega)

/-- C8 counterexample: `ensure_visible(0, 0, 10, 10, false)` on a source
whose bounding box fits at the current zoom recenters to latitude
`0 + (10 - 0) * 1.1 / 2 = 5.5`, not to the box's midpoint `5`: the 10%
padding is applied to the spans before halving, shifting the target by 5%
of the span; the padded box plays no role in the fitting test. -/
theorem ensure_visible_claim_cex :
    (champlain_view_ensure_visible srcTiny privBox 0 0 10 10 false).latitude ≠
      (0 + 10) / 2 ∧
    (champlain_view_ensure_visible srcTiny privBox 0 0 10 10 false).zoom_level =
      privBox.zoom_level := by
  constructor
  · have h : (champlain_view_ensure_visible srcTiny privBox 0 0 10 10 false).latitude
        = 0 + (10 - 0) * (11 / 10) / 2 := rfl
    rw [h]
    norm_num
  · decide

/-- C8 (amended): `ensure_visible(lat1, lon1, lat2, lon2, false)` searches
downward from the current zoom for the first (hence, tightest among those
tested) level at which the projected pixel box of the two coordinates —
unpadded — fits the viewport; levels `min_zoom_level` and below are never
tested.  If a tested level fits, the view switches to it and recenters to
`min + 1.1 * span / 2` per axis (the midpoint shifted by 5% of the span,
because the 10% padding is applied asymmetrically); if none fits, it
degrades to `min_zoom_level` recentered at the origin `(0, 0)`. -/
theorem ensure_visible_spec (src : MapSource) (priv : ViewPriv)
    (lat1 lon1 lat2 lon2 : ℚ) (zStar : Int)
    (hmin : priv.min_zoom_level < priv.zoom_level) :
    (priv.min_zoom_level < zStar → zStar ≤ priv.zoom_level →
     ensureFit src priv (min lat1 lat2) (min lon1 lon2) (max lat1 lat2)
       (max lon1 lon2) zStar = true →
     (∀ z, zStar < z → z ≤ priv.zoom_level →
        ensureFit src priv (min lat1 lat2) (min lon1 lon2) (max lat1 lat2)
          (max lon1 lon2) z = false) →
     champlain_view_ensure_visible src priv lat1 lon1 lat2 lon2 false =
       champlain_view_center_on src (champlain_view_set_zoom_level src priv zStar)
         (min lat1 lat2 + (max lat1 lat2 - min lat1 lat2) * (11 / 10) / 2)
         (min lon1 lon2 + (max lon1 lon2 - min lon1 lon2) * (11 / 10) / 2)) ∧
    ((∀ z, priv.min_zoom_level < z → z ≤ priv.zoom_level →
        ensureFit src priv (min lat1 lat2) (min lon1 lon2) (max lat1 lat2)
          (max lon1 lon2) z = false) →
     champlain_view_ensure_visible src priv lat1 lon1 lat2 lon2 false =
       champlain_view_center_on src
         (champlain_view_set_zoom_level src priv priv.min_zoom_level) 0 0) := by
  constructor
  · intro h1 h2 hfit habove
    have hloop := ensure_visible_loop_found
      (ensureFit src priv (min lat1 lat2) (min lon1 lon2) (max lat1 lat2) (max lon1 lon2))
      priv.min_zoom_level zStar hfit
      ((priv.zoom_level - priv.min_zoom_level).toNat + 1) priv.zoom_level
      h1 h2 habove (by omega)
    simp only [champlain_view_ensure_visible, sortPair_eq_minmax, hloop,
      Bool.false_eq_true, if_false, if_true]
  · intro hnone
    have hloop := ensure_visible_loop_none
      (ensureFit src priv (min lat1 lat2) (min lon1 lon2) (max lat1 lat2) (max lon1 lon2))
      priv.min_zoom_level
      ((priv.zoom_level - priv.min_zoom_level).toNat + 1) priv.zoom_level
      hmin hnone (by omega)
    simp only [champlain_view_ensure_visible, sortPair_eq_minmax, hloop,
      Bool.false_eq_true, if_false, if_true]
    norm_num

/-- Witness for C8: over `srcStep` (bounding box overflowing the viewport
at zooms 4 and 5 only) the search from zoom 5 settles at zoom 3 and
recenters to `min + 1.1 * span / 2`. -/
theorem ensure_visible_spec_witness :
    ensureFit srcStep privStep (min 0 10) (min 0 10) (max 0 10) (max 0 10) 3 = true ∧
    champlain_view_ensure_visible srcStep privStep 0 0 10 10 false =
      champlain_view_center_on srcStep (champlain_view_set_zoom_level srcStep privStep 3)
        (min (0 : ℚ) 10 + (max (0 : ℚ) 10 - min (0 : ℚ) 10) * (11 / 10) / 2)
        (min (0 : ℚ) 10 + (max (0 : ℚ) 10 - min (0 : ℚ) 10) * (11 / 10) / 2) := by
  have hfit : ensureFit srcStep privStep (min 0 10) (min 0 10) (max 0 10)
      (max 0 10) 3 = true := by decide
  have habove : ∀ z : Int, 3 < z → z ≤ privStep.zoom_level →
      ensureFit srcStep privStep (min 0 10) (min 0 10) (max 0 10)
        (max 0 10) z = false := by
    intro z hz1 hz2
    have hz5 : privStep.zoom_level = 5 := rfl
    rw [hz5] at hz2
    interval_cases z
    · decide
    · decide
  exact ⟨hfit, (ensure_visible_spec srcStep privStep 0 0 10 10 3 (by decide)).1
    (by decide) (by decide) hfit habove⟩

/-- C9 counterexample: `champlain_view_set_size` on a pre-map view is not
a harmless no-op.  With `keep_center_on_resize` unset it reaches
`view_load_visible_tiles`, which dereferences the NULL `priv->map`
unconditionally (a crash, modelled as `none`); with the default
`keep_center_on_resize` it performs the first centering and creates the
map grid. -/
theorem premap_set_size_claim_cex :
    champlain_view_set_size srcTiny privPreMap 10 10 = none ∧
    (champlain_view_set_size srcTiny
        { privPreMap with keep_center_on_resize := true } 10 10).map
      (fun p => p.map.isSome) = some true := by
  refine ⟨by decide, by decide⟩

/-- C9 (amended): on a view with no active map (pre-first-`center_on`),
`champlain_view_set_zoom_level` is a guarded no-op; `champlain_view_set_size`
is not: it always stores the new extent, and then either crashes in the
unguarded `view_load_visible_tiles` map dereference (when
`keep_center_on_resize` is unset) or performs the first centering, lazily
creating the map grid (when it is set, the default). -/
theorem premap_ops_spec (src : MapSource) (priv : ViewPriv) (z w h : Int)
    (hmap : priv.map = none) :
    champlain_view_set_zoom_level src priv z = priv ∧
    (priv.keep_center_on_resize = false →
      champlain_view_set_size src priv w h = none) ∧
    (priv.keep_center_on_resize = true →
      ∃ p, champlain_view_set_size src priv w h = some p ∧
        p.map.isSome = true ∧ p.latitude = priv.latitude ∧
        p.longitude = priv.longitude) := by
  refine ⟨?_, ?_, ?_⟩
  · rw [champlain_view_set_zoom_level, if_pos (by simp [hmap])]
  · intro hk
    simp only [champlain_view_set_size, hk, Bool.false_eq_true, if_false]
    simp [view_load_visible_tiles, hmap]
  · intro hk
    simp only [champlain_view_set_size]
    rw [if_pos hk]
    obtain ⟨h1, h2, h3, h4, h5, h6, h7⟩ :=
      center_on_fields src { priv with viewportW := w, viewportH := h }
        priv.latitude priv.longitude
    exact ⟨_, rfl, h7, h1, h2⟩

/-- Witness for C9: the pre-map view `privPreMap` under a zoom request and
a resize. -/
theorem premap_ops_spec_witness :
    privPreMap.map = none ∧
    champlain_view_set_zoom_level srcTiny privPreMap 5 = privPreMap ∧
    champlain_view_set_size srcTiny privPreMap 10 10 = none :=
  ⟨rfl, (premap_ops_spec srcTiny privPreMap 5 10 10 rfl).1,
    (premap_ops_spec srcTiny privPreMap 5 10 10 rfl).2.1 rfl⟩

end Champlain
